import Mathlib

/-!
# Verification of the `volcanoes` package core

A shallow embedding of the core data-handling logic of the `volcanoes`
Python package and proofs about it.  Sources embedded:

* `volcanoes/core/volcano.py`      — record normalisation and accessors
* `volcanoes/core/volcano_set.py`  — collection filters (radius, distance sort)
* `volcanoes/core/gvp.py`          — facade: merge-with-dedup, mode checks, filters
* `volcanoes/core/gvp_downloader.py` — cache manager: download, repair pass,
  cache introspection, CSV→GeoJSON conversion

Modelling conventions:

* Python values stored in a record's field mapping are modelled by `PyVal`
  (strings, ints, floats, `None`).  Python floats are modelled as exact
  rationals `ℚ`; every float literal produced by the code paths proved about
  below is an exact decimal, so no rounding behaviour is relied upon.
  (Special float values `inf`/`nan`, underscore digit separators and
  non-ASCII digits accepted by Python's `float`/`int` constructors are not
  modelled; no claim below depends on them.)
* A Python `dict` is modelled as an insertion-ordered association list;
  assignment to an existing key replaces in place, a new key is appended.
* Python exceptions are modelled with `Except PyErr`; an operation that can
  raise a dynamic `TypeError`/`AttributeError` on ill-typed field values
  returns `Except`.
* Filesystem and network effects of the downloader are modelled by an
  explicit `CacheState` threaded through `GVPDownloader.download`, together
  with an environment supplying fetched bytes; the returned fetch count
  records how many network requests were performed.
-/

namespace Volcanoes

/-- A Python value as stored in a record's field mapping: a string, an
`int`, a `float` (modelled as an exact rational), or `None`. -/
inductive PyVal where
  | str (s : String)
  | int (n : Int)
  | num (q : ℚ)
  | null
deriving DecidableEq, Repr

/-- A Python dict mapping field names to values, as an insertion-ordered
association list. -/
abbrev PyDict := List (String × PyVal)

/-- `m.get(k)` — first binding of `k`, or Python `None` when absent. -/
def dictGet (m : PyDict) (k : String) : PyVal :=
  match m with
  | [] => .null
  | (k', v) :: rest => if k' = k then v else dictGet rest k

/-- `m.get(k, d)` with an explicit default `d`. -/
def dictGetD (m : PyDict) (k : String) (d : PyVal) : PyVal :=
  match m with
  | [] => d
  | (k', v) :: rest => if k' = k then v else dictGetD rest k d

/-- `k in m` — key membership. -/
def dictHas (m : PyDict) (k : String) : Bool :=
  match m with
  | [] => false
  | (k', _) :: rest => k' = k || dictHas rest k

/-- `m[k] = v` — dict assignment: replaces the first binding of `k` in
place, or appends a new binding (Python dicts preserve insertion order). -/
def dictSet (m : PyDict) (k : String) (v : PyVal) : PyDict :=
  match m with
  | [] => [(k, v)]
  | (k', v') :: rest => if k' = k then (k', v) :: rest else (k', v') :: dictSet rest k v

/-- The whitespace characters stripped by Python `str.strip()`. -/
def pyStripChars : List Char := [' ', '\t', '\n', '\r', '\x0b', '\x0c']

/-- Python `str.strip()`: remove leading and trailing whitespace. -/
def pyStrip (s : String) : String :=
  String.mk (((s.data.dropWhile (· ∈ pyStripChars)).reverse.dropWhile
    (· ∈ pyStripChars)).reverse)

/-- Python `str.lower()` on one character (ASCII; the records handled by
this package use ASCII field names and sentinels). -/
def pyLowerChar (c : Char) : Char :=
  if 'A' ≤ c ∧ c ≤ 'Z' then Char.ofNat (c.toNat + 32) else c

/-- Python `str.lower()`. -/
def pyLower (s : String) : String := String.mk (s.data.map pyLowerChar)

/-- Value of a run of decimal digit characters. -/
def digitsVal (l : List Char) : Nat :=
  l.foldl (fun a c => a * 10 + (c.toNat - 48)) 0

/-- Python `int(s)` on a string: optional surrounding whitespace, optional
sign, then a nonempty run of decimal digits; anything else raises
`ValueError` (modelled as `none`). -/
def pyInt? (s : String) : Option Int :=
  let l := (pyStrip s).toList
  match l with
  | '+' :: r => if r ≠ [] ∧ r.all Char.isDigit then some (digitsVal r) else none
  | '-' :: r => if r ≠ [] ∧ r.all Char.isDigit then some (-(digitsVal r : Int)) else none
  | _ => if l ≠ [] ∧ l.all Char.isDigit then some (digitsVal l) else none

/-- Parse a decimal mantissa `digits`, `digits.digits`, `.digits` or
`digits.` (at least one digit overall), as Python's float grammar does. -/
def parseMantissa (l : List Char) : Option ℚ :=
  let ip := l.takeWhile Char.isDigit
  let rest := l.dropWhile Char.isDigit
  match rest with
  | [] => if ip = [] then none else some (digitsVal ip)
  | '.' :: fp =>
      if fp.all Char.isDigit ∧ (ip ≠ [] ∨ fp ≠ []) then
        some ((digitsVal ip : ℚ) + (digitsVal fp : ℚ) / (10 : ℚ) ^ fp.length)
      else none
  | _ => none

/-- Parse an optional exponent sign and digit run. -/
def parseExp (l : List Char) : Option ℤ :=
  match l with
  | '+' :: r => if r ≠ [] ∧ r.all Char.isDigit then some (digitsVal r) else none
  | '-' :: r => if r ≠ [] ∧ r.all Char.isDigit then some (-(digitsVal r : ℤ)) else none
  | _ => if l ≠ [] ∧ l.all Char.isDigit then some (digitsVal l) else none

/-- Python `float(s)` on a string: optional whitespace and sign, a decimal
mantissa, and an optional `e`/`E` exponent.  Returns the exact rational
value, or `none` for `ValueError`. -/
def pyFloat? (s : String) : Option ℚ :=
  let l := (pyStrip s).toList
  let (sign, l) : ℚ × List Char :=
    match l with
    | '+' :: r => (1, r)
    | '-' :: r => (-1, r)
    | _ => (1, l)
  let mant := l.takeWhile (fun c => c ≠ 'e' ∧ c ≠ 'E')
  let rest := l.dropWhile (fun c => c ≠ 'e' ∧ c ≠ 'E')
  match rest with
  | [] => (parseMantissa mant).map (sign * ·)
  | _ :: ex =>
      match parseMantissa mant, parseExp ex with
      | some m, some e => some (sign * m * (10 : ℚ) ^ e)
      | _, _ => none

/-- Python `int(x)` truncates a float toward zero. -/
def ratTrunc (q : ℚ) : Int := if 0 ≤ q then ⌊q⌋ else ⌈q⌉

/-- Python `str(x)` / f-string formatting of a value.  Exact for strings,
ints and `None`; for floats the textual form is approximated by the
rational's `toString` (no claim proved below depends on float formatting). -/
def pyStr (v : PyVal) : String :=
  match v with
  | .str s => s
  | .int n => toString n
  | .num q => toString q
  | .null => "None"

/-- Python exceptions relevant to the embedded code. -/
inductive PyErr where
  | keyError (k : String)
  | valueError
  | typeError
  | attrError
deriving DecidableEq, Repr

/-! ## `volcanoes/core/volcano.py` — the `Volcano` record -/

/-- A `Volcano` record: its processed field mapping (`self._data`). -/
structure Volcano where
  _data : PyDict
deriving DecidableEq, Repr

/-- Python `int(v)` inside the `try` of `_process_data`: `ValueError` and
`TypeError` are caught by the caller, so failure is expressed by returning
`None` directly as the caller's handler does. -/
def convInt (v : PyVal) : PyVal :=
  match v with
  | .str s => match pyInt? s with
    | some n => .int n
    | none => .null
  | .int n => .int n
  | .num q => .int (ratTrunc q)
  | .null => .null

/-- Python `float(v)` with the same exception-to-`None` handling. -/
def convFloat (v : PyVal) : PyVal :=
  match v with
  | .str s => match pyFloat? s with
    | some q => .num q
    | none => .null
  | .int n => .num (n : ℚ)
  | .num q => .num q
  | .null => .null

/-- The numeric fields converted by `Volcano._process_data`. -/
def numericFields : List String :=
  ["VolcanoNumber", "LastEruptionYear", "Latitude", "Longitude", "Elevation"]

/-- One iteration of the numeric conversion loop of `_process_data`:
`if field in self._data and self._data[field] != '': try ... except: None`. -/
def processField (m : PyDict) (f : String) : PyDict :=
  if dictHas m f ∧ dictGet m f ≠ .str "" then
    dictSet m f (if f = "VolcanoNumber" then convInt (dictGet m f) else convFloat (dictGet m f))
  else m

/-- The numeric conversion loop of `_process_data` over all five fields. -/
def processNumeric (m : PyDict) : PyDict :=
  numericFields.foldl processField m

/-- The unnamed-volcano rewrite at the top of `_process_data`:
`if self._data.get('VolcanoName', '').strip().lower() == 'unnamed'` then
`self._data['VolcanoName'] = f"Unnamed-{self._data['VolcanoNumber']}"`.
Indexing `self._data['VolcanoNumber']` raises `KeyError` when the key is
absent; calling `.strip()` on a non-string name raises `AttributeError`. -/
def processUnnamed (m : PyDict) : Except PyErr PyDict :=
  match dictGetD m "VolcanoName" (.str "") with
  | .str s =>
      if pyLower (pyStrip s) = "unnamed" then
        if dictHas m "VolcanoNumber" then
          .ok (dictSet m "VolcanoName" (.str ("Unnamed-" ++ pyStr (dictGet m "VolcanoNumber"))))
        else .error (.keyError "VolcanoNumber")
      else .ok m
  | _ => .error .attrError

/-- `Volcano._process_data`: the unnamed rewrite followed by the numeric
conversion loop. -/
def processData (m : PyDict) : Except PyErr PyDict :=
  (processUnnamed m).map processNumeric

/-- `Volcano.__init__(data)`: stores the data and runs `_process_data`. -/
def mkVolcano (raw : PyDict) : Except PyErr Volcano :=
  (processData raw).map Volcano.mk

/-- Property `volcano_number`: `self._data.get('VolcanoNumber')`. -/
def Volcano.volcano_number (v : Volcano) : PyVal :=
  dictGet v._data "VolcanoNumber"

/-- Property `lat`: `self._data.get('Latitude')`. -/
def Volcano.lat (v : Volcano) : PyVal :=
  dictGet v._data "Latitude"

/-- Property `lon`: `self._data.get('Longitude')`. -/
def Volcano.lon (v : Volcano) : PyVal :=
  dictGet v._data "Longitude"

/-- Property `country`: `self._data.get('Country', '')`. -/
def Volcano.country (v : Volcano) : PyVal :=
  dictGetD v._data "Country" (.str "")

/-- Property `name`: `self._data.get('VolcanoName', '')`. -/
def Volcano.name (v : Volcano) : PyVal :=
  dictGetD v._data "VolcanoName" (.str "")

/-- Property `volcano_type`: `self._data.get('VolcanoType', '')`. -/
def Volcano.volcano_type (v : Volcano) : PyVal :=
  dictGetD v._data "VolcanoType" (.str "")

/-- Property `geologic_epoch`: `self._data.get('GeologicEpoch', '')`. -/
def Volcano.geologic_epoch (v : Volcano) : PyVal :=
  dictGetD v._data "GeologicEpoch" (.str "")

/-- The meters-to-feet factor `3.28084` used by `get_elevation`. -/
def ftFactor : ℚ := 328084 / 100000

/-- `Volcano.get_elevation(units)`: returns `None` when the elevation is
`None`; returns the stored value for meters; multiplies by `3.28084` for
feet (a `TypeError` on a non-numeric stored value); any other unit raises
`ValueError`. -/
def Volcano.get_elevation (v : Volcano) (units : String) : Except PyErr PyVal :=
  let e := dictGet v._data "Elevation"
  if e = .null then .ok .null
  else if pyLower units = "m" then .ok e
  else if pyLower units = "ft" ∨ pyLower units = "feet" then
    match e with
    | .num q => .ok (.num (q * ftFactor))
    | .int n => .ok (.num ((n : ℚ) * ftFactor))
    | _ => .error .typeError
  else .error .valueError

/-! ## Distance and `volcanoes/core/volcano_set.py` -/

/-- Numeric coercion performed implicitly by `math.radians`: accepts a
Python `int` or `float`, anything else raises `TypeError`. -/
def pyNum? (v : PyVal) : Option ℚ :=
  match v with
  | .num q => some q
  | .int n => some (n : ℚ)
  | _ => none

/-- `Volcano._haversine_distance`: great-circle distance with Earth radius
6371 km, via `math.radians`, `sin`, `cos`, `asin` and `sqrt`. -/
noncomputable def haversineDist (lat1 lon1 lat2 lon2 : ℝ) : ℝ :=
  let R : ℝ := 6371
  let lat1 := lat1 * Real.pi / 180
  let lon1 := lon1 * Real.pi / 180
  let lat2 := lat2 * Real.pi / 180
  let lon2 := lon2 * Real.pi / 180
  let dlat := lat2 - lat1
  let dlon := lon2 - lon1
  let a := Real.sin (dlat / 2) ^ 2 + Real.cos lat1 * Real.cos lat2 * Real.sin (dlon / 2) ^ 2
  let c := 2 * Real.arcsin (Real.sqrt a)
  R * c

/-- `Volcano.distance_to(lat, lon)`: `float('inf')` (modelled as `⊤ : EReal`)
when either stored coordinate is `None`; otherwise the haversine distance.
Passing a non-numeric stored coordinate to `math.radians` raises
`TypeError`, modelled by `none`. -/
noncomputable def Volcano.distance_to (v : Volcano) (lat lon : ℚ) : Option EReal :=
  if v.lat = .null ∨ v.lon = .null then some ⊤
  else match pyNum? v.lat, pyNum? v.lon with
    | some a, some b => some ((haversineDist (a : ℝ) (b : ℝ) (lat : ℝ) (lon : ℝ) : ℝ) : EReal)
    | _, _ => none

/-- `VolcanoSet.within_radius`: the comprehension
`[v for v in self._volcanoes if v.distance_to(lat, lon) <= radius_km]`;
a `TypeError` from `distance_to` aborts the whole comprehension. -/
noncomputable def within_radius (vs : List Volcano) (lat lon radius_km : ℚ) :
    Option (List Volcano) :=
  match vs with
  | [] => some []
  | v :: t =>
      match v.distance_to lat lon, within_radius t lat lon radius_km with
      | some d, some l =>
          some (@ite _ (d ≤ ((radius_km : ℝ) : EReal)) (Classical.propDecidable _) (v :: l) l)
      | _, _ => none

/-- `VolcanoSet.sort_by_distance`: `sorted(key=lambda v: v.distance_to(lat, lon))`
— a stable ascending sort by distance; a `TypeError` while computing any
key aborts the sort. -/
noncomputable def sort_by_distance (vs : List Volcano) (lat lon : ℚ) :
    Option (List Volcano) :=
  match vs.mapM (fun v => v.distance_to lat lon) with
  | none => none
  | some _ =>
      some (vs.mergeSort (fun a b =>
        @decide ((a.distance_to lat lon).getD ⊤ ≤ (b.distance_to lat lon).getD ⊤)
          (Classical.propDecidable _)))

/-! ## `volcanoes/core/gvp.py` — merge and facade -/

/-- The set `{v.volcano_number for v in holocene_volcanoes if v.volcano_number is not None}`,
modelled as a list (only membership is used, for which they agree). -/
def holoceneNumbers (hol : List Volcano) : List PyVal :=
  hol.filterMap (fun v => if v.volcano_number ≠ .null then some v.volcano_number else none)

/-- The Pleistocene loop of `GVP._combine_volcanoes`: returns the appended
records and the `duplicates` list, in iteration order. -/
def combineLoop (pleist : List Volcano) (holNums : List PyVal) :
    List Volcano × List PyVal :=
  match pleist with
  | [] => ([], [])
  | p :: rest =>
      let (cs, ds) := combineLoop rest holNums
      if p.volcano_number ≠ .null then
        if p.volcano_number ∈ holNums then (cs, p.volcano_number :: ds)
        else (p :: cs, ds)
      else (cs, ds)

/-- The comparison Python's `sorted` uses on comparable `duplicates`
members: ints and floats intercompare numerically, strings compare
lexicographically.  The catch-all branch is never consulted: `pySorted?`
below sorts only lists whose members are all numbers or all strings (or
shorter than two elements, when no comparison happens at all), and the
sort compares only members of the list it sorts. -/
def pyValLe (x y : PyVal) : Bool :=
  match x, y with
  | .int a, .int b => a ≤ b
  | .int a, .num b => (a : ℚ) ≤ b
  | .num a, .int b => a ≤ (b : ℚ)
  | .num a, .num b => a ≤ b
  | .str a, .str b => a ≤ b
  | _, _ => true

/-- Whether a value is a Python number (`int` or `float`). -/
def isNumV (x : PyVal) : Bool :=
  match x with
  | .int _ => true
  | .num _ => true
  | _ => false

/-- Whether a value is a Python string. -/
def isStrV (x : PyVal) : Bool :=
  match x with
  | .str _ => true
  | _ => false

/-- Python `sorted(l)`: a list of fewer than two elements sorts without
any comparison; otherwise members are compared pairwise, which succeeds
exactly when they are all numbers or all strings — any cross-kind
comparison (including with `None`) raises `TypeError`, modelled as
`none`. -/
def pySorted? (l : List PyVal) : Option (List PyVal) :=
  if l.length ≤ 1 ∨ l.all isNumV ∨ l.all isStrV then some (l.mergeSort pyValLe)
  else none

/-- The single `UserWarning` issued by `_combine_volcanoes`: the duplicate
count, the sample `sorted(duplicates)[:10]`, and whether the `'...'`
ellipsis was appended (`len(duplicates) > 10`). -/
structure MergeWarning where
  count : Nat
  sample : List PyVal
  truncated : Bool
deriving DecidableEq, Repr

/-- `GVP._combine_volcanoes`: all Holocene records, then the Pleistocene
records kept by the loop.  When `duplicates` is nonempty the warning
message evaluates `sorted(duplicates)[:10]` before anything is returned;
if the colliding identifiers mix numbers and strings, that `sorted` call
raises `TypeError` and the merge raises instead of returning. -/
def combineVolcanoes (hol pleist : List Volcano) :
    Except PyErr (List Volcano × Option MergeWarning) :=
  let holNums := holoceneNumbers hol
  let (added, dups) := combineLoop pleist holNums
  if dups = [] then .ok (hol ++ added, none)
  else
    match pySorted? dups with
    | some sortedDups =>
        .ok (hol ++ added,
          some ⟨dups.length, sortedDups.take 10, decide (10 < dups.length)⟩)
    | none => .error .typeError

/-- The lists produced by `self._load_volcanoes_from_csv` for each dataset
(download plus CSV parse, abstracted as the environment). -/
structure LoadEnv where
  holocene_volcanoes : List Volcano
  pleistocene_volcanoes : List Volcano

/-- The `GVP` facade state relevant to the embedded methods. -/
structure GVP where
  use_web_services : Bool
  _volcanoes : Option (List Volcano)

/-- `GVP.get_volcanoes(holocene, pleistocene)`: raises `ValueError` unless
`use_web_services`; returns `VolcanoSet([])` when both flags are false;
otherwise downloads and loads the requested datasets (the returned `Nat`
counts the `downloader.download` calls performed) and combines them when
both were requested. -/
def GVP.get_volcanoes (g : GVP) (env : LoadEnv) (holocene pleistocene : Bool) :
    Except PyErr (List Volcano × Nat) :=
  if ¬ g.use_web_services then .error .valueError
  else if ¬ holocene ∧ ¬ pleistocene then .ok ([], 0)
  else
    let (hv, nh) := if holocene then (env.holocene_volcanoes, 1) else ([], 0)
    let (pv, np') := if pleistocene then (env.pleistocene_volcanoes, 1) else ([], 0)
    if holocene ∧ pleistocene then
      match combineVolcanoes hv pv with
      | .ok (all, _) => .ok (all, nh + np')
      | .error e => .error e
    else if holocene then .ok (hv, nh + np')
    else .ok (pv, nh + np')

/-- Property `GVP.volcanoes`: `[]` in web-services mode before any load;
otherwise `self._volcanoes if self._volcanoes else []` (`None` and the
empty list are both falsy). -/
def GVP.volcanoes (g : GVP) : List Volcano :=
  if g.use_web_services ∧ g._volcanoes = none then []
  else match g._volcanoes with
    | none => []
    | some l => l

/-- The keyword arguments of `GVP.filter_volcanoes` (all default `None`). -/
structure FilterArgs where
  country : Option String
  name : Option String
  id : Option Int
  volcano_type : Option String
  geologic_epoch : Option String
  latitude : Option ℚ
  longitude : Option ℚ
  radius_km : Option ℚ
  min_elevation : Option ℚ
  max_elevation : Option ℚ

/-- Python truthiness of an optional string criterion: `None` and the
empty string both skip the filter. -/
def strCrit (o : Option String) : Option String :=
  match o with
  | some s => if s = "" then none else some s
  | none => none

/-- Python `needle in hay` on strings: substring containment. -/
def pyIn (needle hay : String) : Bool :=
  decide (needle.toList <:+: hay.toList)

/-- `.lower()` on a field value: `AttributeError` unless it is a string. -/
def lowerVal (v : PyVal) : Except PyErr String :=
  match v with
  | .str s => .ok (pyLower s)
  | _ => .error .attrError

/-- One substring filter pass of `filter_volcanoes`, e.g.
`[v for v in filtered if country.lower() in v.country.lower()]`. -/
def filterSub (get : Volcano → PyVal) (s : String) :
    List Volcano → Except PyErr (List Volcano)
  | [] => .ok []
  | v :: t => do
      let c ← lowerVal (get v)
      let r ← filterSub get s t
      pure (if pyIn (pyLower s) c then v :: r else r)

/-- Python `v.id == id` for an `int` criterion: value equality, `True` only
for a numerically equal stored `int` or `float`. -/
def pyEqInt (x : PyVal) (n : Int) : Bool :=
  match x with
  | .int m => m = n
  | .num q => q = (n : ℚ)
  | _ => false

/-- The elevation-range loop of `filter_volcanoes`: records whose
`get_elevation()` is `None` are dropped; otherwise the record is kept when
it violates neither supplied bound (comparing a non-numeric elevation
raises `TypeError`). -/
def elevFilterLoop (minE maxE : Option ℚ) :
    List Volcano → Except PyErr (List Volcano)
  | [] => .ok []
  | v :: t => do
      let e ← v.get_elevation "m"
      let r ← elevFilterLoop minE maxE t
      if e = .null then pure r
      else do
        let q ← (match e with
          | .num q => Except.ok q
          | .int n => Except.ok ((n : ℚ))
          | _ => Except.error PyErr.typeError)
        let keepMin := match minE with
          | some m => decide (¬ q < m)
          | none => true
        let keepMax := match maxE with
          | some m => decide (¬ m < q)
          | none => true
        pure (if keepMin && keepMax then v :: r else r)

/-- One `if <criterion>:` guarded substring filter of `filter_volcanoes`
(skipped for `None` and for the falsy empty string). -/
def applyStrFilter (get : Volcano → PyVal) (o : Option String) (l : List Volcano) :
    Except PyErr (List Volcano) :=
  match strCrit o with
  | some s => filterSub get s l
  | none => pure l

/-- The `if id is not None:` exact-identifier filter. -/
def applyIdFilter (o : Option Int) (l : List Volcano) : List Volcano :=
  match o with
  | some n => l.filter (fun v => pyEqInt v.volcano_number n)
  | none => l

/-- The elevation-range block, entered when either bound is supplied. -/
def applyElevFilter (mn mx : Option ℚ) (l : List Volcano) :
    Except PyErr (List Volcano) :=
  if mn.isSome ∨ mx.isSome then elevFilterLoop mn mx l else pure l

/-- The distance block: when a reference point is supplied, the optional
radius filter followed by the distance sort. -/
noncomputable def applyGeoFilter (la lo r : Option ℚ) (l : List Volcano) :
    Except PyErr (List Volcano) :=
  match la, lo with
  | some la, some lo => do
      let l ← match r with
        | some r =>
            (match within_radius l la lo r with
             | some l' => Except.ok l'
             | none => Except.error PyErr.typeError)
        | none => pure l
      match sort_by_distance l la lo with
      | some l' => Except.ok l'
      | none => Except.error PyErr.typeError
  | _, _ => pure l

/-- `GVP.filter_volcanoes`: the successive criteria filters over
`self.volcanoes.copy()`, then the optional radius filter and the distance
sort when a reference point is supplied. -/
noncomputable def GVP.filter_volcanoes (g : GVP) (a : FilterArgs) :
    Except PyErr (List Volcano) := do
  let filtered := g.volcanoes
  let filtered ← applyStrFilter Volcano.country a.country filtered
  let filtered ← applyStrFilter Volcano.name a.name filtered
  let filtered := applyIdFilter a.id filtered
  let filtered ← applyStrFilter Volcano.volcano_type a.volcano_type filtered
  let filtered ← applyStrFilter Volcano.geologic_epoch a.geologic_epoch filtered
  let filtered ← applyElevFilter a.min_elevation a.max_elevation filtered
  applyGeoFilter a.latitude a.longitude a.radius_km filtered

/-! ## `volcanoes/core/gvp_downloader.py` — cache manager -/

/-- The malformed byte sequence `b"(< "` repaired by `_download_data`. -/
def badSeq : List Nat := [40, 60, 32]

/-- Its replacement `b"(&lt; "`. -/
def fixSeq : List Nat := [40, 38, 108, 116, 59, 32]

/-- Python `bytes.replace(badSeq, fixSeq)`: left-to-right, non-overlapping
replacement of every occurrence. -/
def replaceBad (l : List Nat) : List Nat :=
  match l with
  | [] => []
  | c :: rest =>
      if badSeq.isPrefixOf (c :: rest) then fixSeq ++ replaceBad (rest.drop 2)
      else c :: replaceBad rest
termination_by l.length
decreasing_by
  · simp only [List.length_drop, List.length_cons]
    omega
  · simp

/-- The body of `GVPDownloader._download_data` after a successful HTTP
response: `if b'(< ' in content: content = content.replace(b'(< ', b'(&lt; ')`.
The network request itself is supplied by the environment; a transport
failure (which would raise `RuntimeError`) is outside the successful-fetch
paths proved about below. -/
def downloadData (raw : List Nat) : List Nat :=
  if badSeq <:+: raw then replaceBad raw else raw

/-- The metadata sidecar contents written by `_save_metadata`. -/
structure Metadata where
  dataset : String
  download_time : String
  download_timestamp : ℚ
  file_path : String
  file_size : Nat
deriving DecidableEq, Repr

/-- The cache directory state: for each dataset name, the bytes of the
payload file `<dataset>.csv` if it exists, and the parsed metadata sidecar
`<dataset>.meta.json` if it exists, parses, and is non-empty (the three
failure cases are indistinguishable to `download` and `get_cache_info`,
which test `_load_metadata`'s result for truthiness). -/
structure CacheState where
  payload : String → Option (List Nat)
  meta : String → Option Metadata

/-- Pointwise update of a dataset-indexed table. -/
def setAt {α : Type} (f : String → α) (k : String) (v : α) : String → α :=
  fun k' => if k' = k then v else f k'

/-- The closed dataset enumeration `GVPDownloader.DATASETS`. -/
def DATASETS : List (String × String) :=
  [("holocene_volcanoes", "GVP-VOTW:Smithsonian_VOTW_Holocene_Volcanoes"),
   ("holocene_eruptions", "GVP-VOTW:Smithsonian_VOTW_Holocene_Eruptions"),
   ("pleistocene_volcanoes", "GVP-VOTW:Smithsonian_VOTW_Pleistocene_Volcanoes"),
   ("pleistocene_eruptions", "GVP-VOTW:Smithsonian_VOTW_Pleistocene_Eruptions")]

/-- The dataset identifiers (`DATASETS.keys()`). -/
def datasetKeys : List String := DATASETS.map Prod.fst

/-- `GVPDownloader._get_cache_path(dataset, format)`:
`self.cache_dir / f"{dataset}.{format}"`. -/
def getCachePath (cacheDir dataset format : String) : String :=
  cacheDir ++ "/" ++ dataset ++ "." ++ format

/-- The downloader environment: the bytes a successful network fetch of a
dataset returns, and the current wall-clock time recorded in metadata. -/
structure FetchEnv where
  fetch : String → List Nat
  nowIso : String
  nowEpoch : ℚ

/-- The cache state after the fetch branch of `download`: the repaired
bytes written to the payload file (`cache_path.write_bytes(data)`) and the
metadata sidecar written by `_save_metadata`. -/
def afterDownload (st : CacheState) (env : FetchEnv) (cacheDir dataset : String) :
    CacheState :=
  let cache_path := getCachePath cacheDir dataset "csv"
  let data := downloadData (env.fetch dataset)
  { payload := setAt st.payload dataset (some data),
    meta := setAt st.meta dataset (some
      { dataset := dataset,
        download_time := env.nowIso,
        download_timestamp := env.nowEpoch,
        file_path := cache_path,
        file_size := data.length }) }

/-- `GVPDownloader.download(dataset, force_refresh)`: `ValueError` for an
identifier outside the enumeration; a pure cache hit (returning the cache
path unchanged, no fetch) when `force_refresh` is false, the payload file
exists and the metadata sidecar loads; otherwise one network fetch, the
repair pass, the payload write, and the metadata write.  The result is the
returned path, the cache state after the call, and the number of network
fetches performed. -/
def download (st : CacheState) (env : FetchEnv) (cacheDir dataset : String)
    (force_refresh : Bool) : Except PyErr (String × CacheState × Nat) :=
  if dataset ∉ datasetKeys then .error .valueError
  else
    let cache_path := getCachePath cacheDir dataset "csv"
    if ¬ force_refresh ∧ (st.payload dataset).isSome ∧ (st.meta dataset).isSome then
      .ok (cache_path, st, 0)
    else
      .ok (cache_path, afterDownload st env cacheDir dataset, 1)

/-- One entry of the dictionary returned by `get_cache_info`. -/
structure CacheEntry where
  cached : Bool
  download_time : Option String
  file_size : Option Nat
  file_path : String
deriving DecidableEq, Repr

/-- The per-dataset entry built by the loop of `get_cache_info`:
`cached: True` with the recorded time and size when the payload file exists
and the metadata loads, else `cached: False` with the path that would be
used. -/
def cacheEntryFor (st : CacheState) (cacheDir ds : String) : CacheEntry :=
  let cache_path := getCachePath cacheDir ds "csv"
  match st.payload ds, st.meta ds with
  | some _, some m =>
      { cached := true, download_time := some m.download_time,
        file_size := some m.file_size, file_path := cache_path }
  | _, _ =>
      { cached := false, download_time := none,
        file_size := none, file_path := cache_path }

/-- `GVPDownloader.get_cache_info(dataset)`: for the named dataset (any
string — no membership check is performed) or for every enumerated dataset
when omitted.  The method only inspects the cache state; it never raises
and never touches the network. -/
def getCacheInfo (st : CacheState) (cacheDir : String) (dataset : Option String) :
    Except PyErr (List (String × CacheEntry)) :=
  let datasets := match dataset with
    | some ds => [ds]
    | none => datasetKeys
  .ok (datasets.map (fun ds => (ds, cacheEntryFor st cacheDir ds)))

/-! ## `GVPDownloader._csv_to_geojson` -/

/-- A CSV row as produced by `csv.DictReader`: field name to field string. -/
abbrev CsvRow := List (String × String)

/-- `row.get(k)`: the first binding, `None` (here `none`) when absent. -/
def rowGet (row : CsvRow) (k : String) : Option String :=
  match row with
  | [] => none
  | (k', v) :: rest => if k' = k then some v else rowGet rest k

/-- `float(row.get(k1, row.get(k2, 0)))`: the capitalised key takes
precedence, then the lowercase key; when both are absent the literal `0`
is used, which converts to `0.0`.  `none` models the `ValueError` caught
by the row loop. -/
def coordParse (row : CsvRow) (k1 k2 : String) : Option ℚ :=
  match rowGet row k1 with
  | some s => pyFloat? s
  | none =>
      match rowGet row k2 with
      | some s => pyFloat? s
      | none => some 0

/-- A re-typed GeoJSON property value. -/
inductive PropVal where
  | num (q : ℚ)
  | int (n : Int)
  | str (s : String)
deriving DecidableEq, Repr

/-- The opportunistic re-typing of a property value:
`float(value)` when the string contains `'.'`, else `int(value)`, falling
back to the original string when the conversion raises. -/
def retypeProp (v : String) : PropVal :=
  if v.toList.contains '.' then
    match pyFloat? v with
    | some q => .num q
    | none => .str v
  else
    match pyInt? v with
    | some n => .int n
    | none => .str v

/-- The field names excluded from feature properties (compared after
lowercasing). -/
def coordNames : List String := ["latitude", "longitude", "lat", "lon"]

/-- One GeoJSON feature: `coordinates` is `[lon, lat]`. -/
structure Feature where
  coordinates : ℚ × ℚ
  properties : List (String × PropVal)
deriving DecidableEq, Repr

/-- The row loop of `_csv_to_geojson`, exactly as the source iterates:
parse both coordinates (a `ValueError` silently drops the row), then build
the feature's properties from every non-coordinate field. -/
def csvToGeojson (rows : List CsvRow) : List Feature :=
  match rows with
  | [] => []
  | row :: rest =>
      match coordParse row "Latitude" "latitude", coordParse row "Longitude" "longitude" with
      | some lat, some lon =>
          { coordinates := (lon, lat),
            properties := row.filterMap (fun kv =>
              if pyLower kv.1 ∈ coordNames then none
              else some (kv.1, retypeProp kv.2)) } :: csvToGeojson rest
      | _, _ => csvToGeojson rest

/-! ## Basic dictionary lemmas -/

theorem dictGet_dictSet_self (m : PyDict) (k : String) (v : PyVal) :
    dictGet (dictSet m k v) k = v := by
  induction m with
  | nil => simp [dictSet, dictGet]
  | cons kv rest ih =>
      by_cases h : kv.1 = k
      · simp [dictSet, dictGet, h]
      · simp [dictSet, dictGet, h, ih]

theorem dictGet_dictSet_ne (m : PyDict) (k k' : String) (v : PyVal) (h : k' ≠ k) :
    dictGet (dictSet m k v) k' = dictGet m k' := by
  induction m with
  | nil => simp [dictSet, dictGet, Ne.symm h]
  | cons kv rest ih =>
      by_cases hk : kv.1 = k
      · simp [dictSet, hk, dictGet, Ne.symm h]
      · by_cases hk' : kv.1 = k'
        · simp [dictSet, dictGet, hk, hk', h, ih]
        · simp [dictSet, dictGet, hk, hk', ih]

theorem dictHas_dictSet_ne (m : PyDict) (k k' : String) (v : PyVal) (h : k' ≠ k) :
    dictHas (dictSet m k v) k' = dictHas m k' := by
  induction m with
  | nil => simp [dictSet, dictHas, Ne.symm h]
  | cons kv rest ih =>
      by_cases hk : kv.1 = k
      · simp [dictSet, hk, dictHas]
      · simp [dictSet, hk, dictHas, ih]

theorem dictGet_eq_null_of_not_has (m : PyDict) (k : String)
    (h : dictHas m k = false) : dictGet m k = .null := by
  induction m with
  | nil => rfl
  | cons kv rest ih =>
      simp only [dictHas, Bool.or_eq_false_iff, decide_eq_false_iff_not] at h
      simp [dictGet, h.1, ih h.2]

theorem dictHas_of_dictGet_ne_null (m : PyDict) (k : String)
    (h : dictGet m k ≠ .null) : dictHas m k = true := by
  by_contra hc
  exact h (dictGet_eq_null_of_not_has m k (by simpa using hc))

/-! ## Claim C8 — unnamed record without an identifier raises `KeyError` -/

/-- C8: for every raw field mapping whose `VolcanoName` value is a string
that strips and case-insensitively equals `"unnamed"` but which has no
`VolcanoNumber` key, `Volcano` construction raises `KeyError` instead of
producing a record. -/
theorem C8_unnamed_without_number_raises (m : PyDict) (s : String)
    (hname : dictGetD m "VolcanoName" (.str "") = .str s)
    (hs : pyLower (pyStrip s) = "unnamed")
    (hnum : dictHas m "VolcanoNumber" = false) :
    mkVolcano m = .error (.keyError "VolcanoNumber") := by
  simp [mkVolcano, processData, processUnnamed, hname, hs, hnum, Except.map]

/-- Witness for C8 at the mapping `{"VolcanoName": "unnamed"}`. -/
theorem C8_unnamed_without_number_raises_witness :
    mkVolcano [("VolcanoName", PyVal.str "unnamed")] =
      .error (.keyError "VolcanoNumber") :=
  C8_unnamed_without_number_raises [("VolcanoName", PyVal.str "unnamed")]
    "unnamed" rfl (by decide) rfl

/-! ## Claim C7 — `get_volcanoes` mode check and both-flags-false case -/

/-- C7: `get_volcanoes` raises the mode error (`ValueError`) whenever the
facade was not constructed in web-services mode; in web-services mode,
calling it with both flags false returns an empty collection with no
download performed. -/
theorem C7_get_volcanoes_mode_and_empty (g : GVP) (env : LoadEnv) :
    (g.use_web_services = false →
      ∀ holocene pleistocene, g.get_volcanoes env holocene pleistocene = .error .valueError) ∧
    (g.use_web_services = true → g.get_volcanoes env false false = .ok ([], 0)) := by
  constructor
  · intro hg holocene pleistocene
    simp [GVP.get_volcanoes, hg]
  · intro hg
    simp [GVP.get_volcanoes, hg]

/-- Witness for C7: an eager-mode facade errors, a lazy-mode facade with
both flags false returns the empty collection and zero downloads. -/
theorem C7_get_volcanoes_mode_and_empty_witness :
    GVP.get_volcanoes ⟨false, none⟩ ⟨[], []⟩ true false = .error .valueError ∧
    GVP.get_volcanoes ⟨true, none⟩ ⟨[], []⟩ false false = .ok ([], 0) :=
  ⟨(C7_get_volcanoes_mode_and_empty ⟨false, none⟩ ⟨[], []⟩).1 rfl true false,
   (C7_get_volcanoes_mode_and_empty ⟨true, none⟩ ⟨[], []⟩).2 rfl⟩

/-! ## Claim C2 — cache hit semantics of `download` -/

/-- C2: for a valid dataset identifier with `force_refresh` false, when the
payload file exists and the metadata sidecar loads, `download` returns the
existing cache path unchanged with zero network fetches; and from a state
where that cache hit does not yet hold, two consecutive `download` calls
perform exactly one fetch — the second call is a pure cache hit on the
state the first call produced. -/
theorem C2_download_cache_hit (st : CacheState) (env : FetchEnv)
    (cacheDir ds : String) (hds : ds ∈ datasetKeys) :
    ((st.payload ds).isSome = true → (st.meta ds).isSome = true →
      download st env cacheDir ds false = .ok (getCachePath cacheDir ds "csv", st, 0)) ∧
    (¬ ((st.payload ds).isSome = true ∧ (st.meta ds).isSome = true) →
      download st env cacheDir ds false =
        .ok (getCachePath cacheDir ds "csv", afterDownload st env cacheDir ds, 1) ∧
      download (afterDownload st env cacheDir ds) env cacheDir ds false =
        .ok (getCachePath cacheDir ds "csv", afterDownload st env cacheDir ds, 0)) := by
  have hmem : ¬ ds ∉ datasetKeys := by simpa using hds
  constructor
  · intro h1 h2
    simp [download, hmem, h1, h2]
  · intro hmiss
    constructor
    · unfold download
      rw [if_neg hmem, if_neg (by simpa using hmiss)]
    · simp [download, hmem, afterDownload, setAt]

/-- Witness for C2 from an empty cache directory: the first call fetches
once, the second is a hit. -/
theorem C2_download_cache_hit_witness :
    download ⟨fun _ => none, fun _ => none⟩ ⟨fun _ => [], "t0", 0⟩ "c"
        "holocene_volcanoes" false =
      .ok ("c/holocene_volcanoes.csv",
        afterDownload ⟨fun _ => none, fun _ => none⟩ ⟨fun _ => [], "t0", 0⟩ "c"
          "holocene_volcanoes", 1) ∧
    download (afterDownload ⟨fun _ => none, fun _ => none⟩ ⟨fun _ => [], "t0", 0⟩ "c"
        "holocene_volcanoes") ⟨fun _ => [], "t0", 0⟩ "c" "holocene_volcanoes" false =
      .ok ("c/holocene_volcanoes.csv",
        afterDownload ⟨fun _ => none, fun _ => none⟩ ⟨fun _ => [], "t0", 0⟩ "c"
          "holocene_volcanoes", 0) :=
  (C2_download_cache_hit ⟨fun _ => none, fun _ => none⟩ ⟨fun _ => [], "t0", 0⟩ "c"
    "holocene_volcanoes" (by simp [datasetKeys, DATASETS])).2 (by simp)

/-! ## Claim C10 — `get_cache_info` on arbitrary identifiers -/

/-- C10: `get_cache_info` never raises for any string identifier — it
returns a status entry built by the same per-dataset formula used for
valid identifiers; when the payload file or parsed metadata is absent the
entry reports not-cached together with the cache path that would be
used. -/
theorem C10_get_cache_info_total (st : CacheState) (cacheDir ds : String) :
    getCacheInfo st cacheDir (some ds) = .ok [(ds, cacheEntryFor st cacheDir ds)] ∧
    ((st.payload ds).isNone = true ∨ (st.meta ds).isNone = true →
      cacheEntryFor st cacheDir ds =
        { cached := false, download_time := none, file_size := none,
          file_path := getCachePath cacheDir ds "csv" }) := by
  constructor
  · rfl
  · intro h
    rcases hp : st.payload ds with _ | p <;> rcases hm : st.meta ds with _ | m
    · simp [cacheEntryFor, hp, hm]
    · simp [cacheEntryFor, hp, hm]
    · simp [cacheEntryFor, hp, hm]
    · simp [hp, hm] at h

/-- Witness for C10 at the unknown identifier `"bogus"` on an empty cache:
no error, not cached, and the would-be path is reported. -/
theorem C10_get_cache_info_total_witness :
    getCacheInfo ⟨fun _ => none, fun _ => none⟩ "c" (some "bogus") =
      .ok [("bogus", cacheEntryFor ⟨fun _ => none, fun _ => none⟩ "c" "bogus")] ∧
    cacheEntryFor ⟨fun _ => none, fun _ => none⟩ "c" "bogus" =
      { cached := false, download_time := none, file_size := none,
        file_path := "c/bogus.csv" } :=
  ⟨(C10_get_cache_info_total ⟨fun _ => none, fun _ => none⟩ "c" "bogus").1,
   (C10_get_cache_info_total ⟨fun _ => none, fun _ => none⟩ "c" "bogus").2 (Or.inl rfl)⟩

/-! ## Claim C5 — malformed numeric fields degrade without raising -/

theorem processField_get_ne (m : PyDict) (g f : String) (h : g ≠ f) :
    dictGet (processField m g) f = dictGet m f := by
  unfold processField
  split
  · exact dictGet_dictSet_ne _ _ _ _ (Ne.symm h)
  · rfl

theorem processField_has_ne (m : PyDict) (g f : String) (h : g ≠ f) :
    dictHas (processField m g) f = dictHas m f := by
  unfold processField
  split
  · exact dictHas_dictSet_ne _ _ _ _ (Ne.symm h)
  · rfl

theorem processField_get_self (m : PyDict) (f : String) :
    dictGet (processField m f) f =
      if dictHas m f = true ∧ dictGet m f ≠ PyVal.str "" then
        (if f = "VolcanoNumber" then convInt (dictGet m f) else convFloat (dictGet m f))
      else dictGet m f := by
  by_cases hc : dictHas m f = true ∧ dictGet m f ≠ PyVal.str ""
  · rw [processField, if_pos hc, if_pos hc, dictGet_dictSet_self]
  · rw [processField, if_neg hc, if_neg hc]

/-- The outcome of the numeric-conversion loop at each numeric field:
present non-empty values are converted (`int` for the identifier, `float`
otherwise); absent or empty-string values are left untouched. -/
theorem processNumeric_get (m : PyDict) (f : String) (hf : f ∈ numericFields) :
    dictGet (processNumeric m) f =
      if dictHas m f = true ∧ dictGet m f ≠ PyVal.str "" then
        (if f = "VolcanoNumber" then convInt (dictGet m f) else convFloat (dictGet m f))
      else dictGet m f := by
  have expand : processNumeric m =
      processField (processField (processField (processField
        (processField m "VolcanoNumber") "LastEruptionYear") "Latitude")
          "Longitude") "Elevation" := rfl
  simp only [numericFields, List.mem_cons, List.not_mem_nil, or_false] at hf
  rcases hf with rfl | rfl | rfl | rfl | rfl
  · rw [expand, processField_get_ne _ _ _ (by decide),
      processField_get_ne _ _ _ (by decide), processField_get_ne _ _ _ (by decide),
      processField_get_ne _ _ _ (by decide), processField_get_self]
  · rw [expand, processField_get_ne _ _ _ (by decide),
      processField_get_ne _ _ _ (by decide), processField_get_ne _ _ _ (by decide),
      processField_get_self, processField_get_ne _ _ _ (by decide),
      processField_has_ne _ _ _ (by decide)]
  · rw [expand, processField_get_ne _ _ _ (by decide),
      processField_get_ne _ _ _ (by decide), processField_get_self,
      processField_get_ne _ _ _ (by decide), processField_get_ne _ _ _ (by decide),
      processField_has_ne _ _ _ (by decide), processField_has_ne _ _ _ (by decide)]
  · rw [expand, processField_get_ne _ _ _ (by decide), processField_get_self,
      processField_get_ne _ _ _ (by decide), processField_get_ne _ _ _ (by decide),
      processField_get_ne _ _ _ (by decide), processField_has_ne _ _ _ (by decide),
      processField_has_ne _ _ _ (by decide), processField_has_ne _ _ _ (by decide)]
  · rw [expand, processField_get_self, processField_get_ne _ _ _ (by decide),
      processField_get_ne _ _ _ (by decide), processField_get_ne _ _ _ (by decide),
      processField_get_ne _ _ _ (by decide), processField_has_ne _ _ _ (by decide),
      processField_has_ne _ _ _ (by decide), processField_has_ne _ _ _ (by decide),
      processField_has_ne _ _ _ (by decide)]

theorem convInt_cases (x : PyVal) : (∃ n, convInt x = PyVal.int n) ∨ convInt x = PyVal.null := by
  cases x with
  | str s =>
      rcases h : pyInt? s with _ | n
      · exact Or.inr (by simp [convInt, h])
      · exact Or.inl ⟨n, by simp [convInt, h]⟩
  | int n => exact Or.inl ⟨n, rfl⟩
  | num q => exact Or.inl ⟨ratTrunc q, rfl⟩
  | null => exact Or.inr rfl

theorem convFloat_cases (x : PyVal) :
    (∃ q, convFloat x = PyVal.num q) ∨ convFloat x = PyVal.null := by
  cases x with
  | str s =>
      rcases h : pyFloat? s with _ | q
      · exact Or.inr (by simp [convFloat, h])
      · exact Or.inl ⟨q, by simp [convFloat, h]⟩
  | int n => exact Or.inl ⟨(n : ℚ), rfl⟩
  | num q => exact Or.inl ⟨q, rfl⟩
  | null => exact Or.inr rfl

/-- The unnamed-name rewrite touches only `VolcanoName`. -/
theorem processUnnamed_preserves (m m' : PyDict) (h : processUnnamed m = .ok m')
    (f : String) (hf : f ≠ "VolcanoName") :
    dictGet m' f = dictGet m f ∧ dictHas m' f = dictHas m f := by
  unfold processUnnamed at h
  split at h
  · split at h
    · split at h
      · cases h
        exact ⟨dictGet_dictSet_ne _ _ _ _ hf, dictHas_dictSet_ne _ _ _ _ hf⟩
      · exact Except.noConfusion h
    · cases h
      exact ⟨rfl, rfl⟩
  · exact Except.noConfusion h

/-- C5, counterexample to the claim as stated: the raw mapping
`{"VolcanoNumber": ""}` is accepted, but the `''` identifier fails numeric
parsing yet is not set to the absent value — the conversion loop skips
empty strings, so the identifier accessor yields `''`, which is neither a
valid integer nor absent. -/
theorem C5_counterexample :
    mkVolcano [("VolcanoNumber", PyVal.str "")] =
      .ok (Volcano.mk [("VolcanoNumber", PyVal.str "")]) ∧
    (Volcano.mk [("VolcanoNumber", PyVal.str "")]).volcano_number = PyVal.str "" ∧
    pyInt? "" = none ∧
    (∀ n : Int, PyVal.str "" ≠ PyVal.int n) ∧ PyVal.str "" ≠ PyVal.null :=
  ⟨rfl, rfl, rfl, fun _ h => PyVal.noConfusion h, fun h => PyVal.noConfusion h⟩

/-- C5 (amended): construction never raises from the numeric-conversion
stage — any construction error comes from the unnamed-name rewrite; each
numeric field of a constructed record is an int, a float, absent (`None`),
or the untouched empty string (the amendment: a raw `''` is skipped, not
nulled); the identifier in particular is an int, `None`, or `''`; and a
record with elevation `"N/A"` is constructed with an absent elevation. -/
theorem C5_amended (m : PyDict) :
    (∀ e, mkVolcano m = .error e → processUnnamed m = .error e) ∧
    (∀ v, mkVolcano m = .ok v →
      (∀ f ∈ numericFields,
        (∃ n, dictGet v._data f = PyVal.int n) ∨ (∃ q, dictGet v._data f = PyVal.num q) ∨
        dictGet v._data f = PyVal.null ∨ dictGet v._data f = PyVal.str "") ∧
      ((∃ n, v.volcano_number = PyVal.int n) ∨ v.volcano_number = PyVal.null ∨
        v.volcano_number = PyVal.str "") ∧
      (dictGet m "Elevation" = PyVal.str "N/A" → v.get_elevation "m" = .ok PyVal.null)) := by
  rcases hu : processUnnamed m with e' | m'
  · refine ⟨fun e he => ?_, fun v hv => ?_⟩
    · simp [mkVolcano, processData, hu, Except.map] at he
      rw [he]
    · simp [mkVolcano, processData, hu, Except.map] at hv
  · have hmk : mkVolcano m = .ok (Volcano.mk (processNumeric m')) := by
      simp [mkVolcano, processData, hu, Except.map]
    refine ⟨fun e he => ?_, fun v hv => ?_⟩
    · rw [hmk] at he
      cases he
    · rw [hmk] at hv
      cases hv
      have fieldCase : ∀ f ∈ numericFields,
          (∃ n, dictGet (processNumeric m') f = PyVal.int n) ∨
          (∃ q, dictGet (processNumeric m') f = PyVal.num q) ∨
          dictGet (processNumeric m') f = PyVal.null ∨
          dictGet (processNumeric m') f = PyVal.str "" := by
        intro f hf
        rw [processNumeric_get m' f hf]
        by_cases hc : dictHas m' f = true ∧ dictGet m' f ≠ PyVal.str ""
        · rw [if_pos hc]
          by_cases hvn : f = "VolcanoNumber"
          · rw [if_pos hvn]
            rcases convInt_cases (dictGet m' f) with ⟨n, hn⟩ | hn
            · exact Or.inl ⟨n, hn⟩
            · exact Or.inr (Or.inr (Or.inl hn))
          · rw [if_neg hvn]
            rcases convFloat_cases (dictGet m' f) with ⟨q, hq⟩ | hq
            · exact Or.inr (Or.inl ⟨q, hq⟩)
            · exact Or.inr (Or.inr (Or.inl hq))
        · rw [if_neg hc]
          push_neg at hc
          by_cases hh : dictHas m' f = true
          · exact Or.inr (Or.inr (Or.inr (hc hh)))
          · exact Or.inr (Or.inr (Or.inl
              (dictGet_eq_null_of_not_has m' f (by simpa using hh))))
      refine ⟨fieldCase, ?_, ?_⟩
      · have hvn := processNumeric_get m' "VolcanoNumber" (by simp [numericFields])
        simp only [Volcano.volcano_number]
        rw [hvn]
        by_cases hc : dictHas m' "VolcanoNumber" = true ∧
            dictGet m' "VolcanoNumber" ≠ PyVal.str ""
        · rw [if_pos hc, if_pos rfl]
          rcases convInt_cases (dictGet m' "VolcanoNumber") with ⟨n, hn⟩ | hn
          · exact Or.inl ⟨n, hn⟩
          · exact Or.inr (Or.inl hn)
        · rw [if_neg hc]
          push_neg at hc
          by_cases hh : dictHas m' "VolcanoNumber" = true
          · exact Or.inr (Or.inr (hc hh))
          · exact Or.inr (Or.inl
              (dictGet_eq_null_of_not_has m' _ (by simpa using hh)))
      · intro hel
        have hne : dictGet m "Elevation" ≠ PyVal.null := by
          rw [hel]
          decide
        have hpres := processUnnamed_preserves m m' hu "Elevation" (by decide)
        have hget : dictGet m' "Elevation" = PyVal.str "N/A" := by rw [hpres.1, hel]
        have hhas : dictHas m' "Elevation" = true := by
          rw [hpres.2]
          exact dictHas_of_dictGet_ne_null m _ hne
        have hnull : dictGet (processNumeric m') "Elevation" = PyVal.null := by
          rw [processNumeric_get m' "Elevation" (by simp [numericFields]),
            if_pos ⟨hhas, by rw [hget]; decide⟩,
            if_neg (by decide), hget]
          rfl
        simp [Volcano.get_elevation, hnull]

/-- Witness for C5 at the mapping `{"Elevation": "N/A"}`: construction
succeeds, the elevation accessor yields the absent value, and the
identifier accessor is in the allowed range. -/
theorem C5_amended_witness :
    ((∃ n, (Volcano.mk [("Elevation", PyVal.null)]).volcano_number = PyVal.int n) ∨
      (Volcano.mk [("Elevation", PyVal.null)]).volcano_number = PyVal.null ∨
      (Volcano.mk [("Elevation", PyVal.null)]).volcano_number = PyVal.str "") ∧
    (Volcano.mk [("Elevation", PyVal.null)]).get_elevation "m" = .ok PyVal.null :=
  ⟨((C5_amended [("Elevation", PyVal.str "N/A")]).2 _ rfl).2.1,
   ((C5_amended [("Elevation", PyVal.str "N/A")]).2 _ rfl).2.2 rfl⟩

/-! ## Claim C1 — merge-with-dedup -/

/-- The Pleistocene loop is a filter (records kept) paired with a
filterMap (duplicate identifiers collected). -/
theorem combineLoop_eq (pl : List Volcano) (ns : List PyVal) :
    combineLoop pl ns =
      (pl.filter (fun p =>
         decide (p.volcano_number ≠ PyVal.null ∧ p.volcano_number ∉ ns)),
       pl.filterMap (fun p =>
         if p.volcano_number ≠ PyVal.null ∧ p.volcano_number ∈ ns
         then some p.volcano_number else none)) := by
  induction pl with
  | nil => rfl
  | cons p rest ih =>
      simp only [combineLoop, ih, List.filter_cons, List.filterMap_cons]
      by_cases h1 : p.volcano_number = PyVal.null
      · simp [h1]
      · by_cases h2 : p.volcano_number ∈ ns
        · simp [h1, h2]
        · simp [h1, h2]

/-- The Pleistocene records the amended claim says are kept: those with a
present identifier not appearing among the Holocene identifiers. -/
def keptPleistocene (hol pleist : List Volcano) : List Volcano :=
  pleist.filter (fun p =>
    decide (p.volcano_number ≠ PyVal.null ∧ p.volcano_number ∉ holoceneNumbers hol))

/-- The colliding identifiers collected by the loop, in iteration order
and with multiplicity. -/
def collidingIds (hol pleist : List Volcano) : List PyVal :=
  pleist.filterMap (fun p =>
    if p.volcano_number ≠ PyVal.null ∧ p.volcano_number ∈ holoceneNumbers hol
    then some p.volcano_number else none)

/-- C1, counterexample to the claim as stated: a Pleistocene record with
an absent (`None`) identifier has an identifier that does not appear among
the Holocene identifiers, yet `_combine_volcanoes` drops it — the loop
keeps a Pleistocene record only when its identifier `is not None`. -/
theorem C1_counterexample :
    (Volcano.mk []).volcano_number ∉ holoceneNumbers [] ∧
    combineVolcanoes [] [Volcano.mk []] = .ok ([], none) ∧
    Volcano.mk [] ∉ ([] : List Volcano) := by
  refine ⟨?_, rfl, List.not_mem_nil _⟩
  simp [holoceneNumbers]

/-- C1 (amended): the merge keeps every Holocene record plus every
Pleistocene record with a present (non-`None`) identifier not appearing
among the Holocene identifiers — Pleistocene records with an absent
identifier are dropped as well.  With no collision it returns with no
warning; when collisions exist and Python can sort the colliding
identifiers (all numbers or all strings, or a single one) it returns with
exactly one warning reporting the number of colliding records and the
first ten colliding identifiers in sorted order; and when the colliding
identifiers mix numbers with strings, the `sorted` call inside the warning
message raises `TypeError` and the merge raises instead of returning. -/
theorem C1_amended (hol pleist : List Volcano) :
    (collidingIds hol pleist = [] →
      combineVolcanoes hol pleist = .ok (hol ++ keptPleistocene hol pleist, none)) ∧
    (collidingIds hol pleist ≠ [] →
      ∀ l, pySorted? (collidingIds hol pleist) = some l →
        combineVolcanoes hol pleist =
          .ok (hol ++ keptPleistocene hol pleist,
            some ⟨(collidingIds hol pleist).length, l.take 10,
              decide (10 < (collidingIds hol pleist).length)⟩)) ∧
    (collidingIds hol pleist ≠ [] →
      pySorted? (collidingIds hol pleist) = none →
        combineVolcanoes hol pleist = .error .typeError) := by
  have hloop : combineLoop pleist (holoceneNumbers hol) =
      (keptPleistocene hol pleist, collidingIds hol pleist) :=
    combineLoop_eq pleist (holoceneNumbers hol)
  refine ⟨fun hd => ?_, fun hd l hl => ?_, fun hd hl => ?_⟩
  · unfold combineVolcanoes
    simp only [hloop]
    rw [if_pos hd]
  · unfold combineVolcanoes
    simp only [hloop]
    rw [if_neg hd, hl]
  · unfold combineVolcanoes
    simp only [hloop]
    rw [if_neg hd, hl]

/-- Witness for C1: the spec's dedup example `H = {1, 2}`, `P = {2, 3}`
merges to `{1, 2, 3}` with one warning citing identifier 2; and colliding
identifiers mixing an int with the (reachable) empty-string identifier
make the merge raise `TypeError`. -/
theorem C1_amended_witness :
    combineVolcanoes
        [Volcano.mk [("VolcanoNumber", PyVal.int 1)],
         Volcano.mk [("VolcanoNumber", PyVal.int 2)]]
        [Volcano.mk [("VolcanoNumber", PyVal.int 2)],
         Volcano.mk [("VolcanoNumber", PyVal.int 3)]] =
      .ok ([Volcano.mk [("VolcanoNumber", PyVal.int 1)],
            Volcano.mk [("VolcanoNumber", PyVal.int 2)],
            Volcano.mk [("VolcanoNumber", PyVal.int 3)]],
        some ⟨1, [PyVal.int 2], false⟩) ∧
    combineVolcanoes
        [Volcano.mk [("VolcanoNumber", PyVal.int 1)],
         Volcano.mk [("VolcanoNumber", PyVal.str "")]]
        [Volcano.mk [("VolcanoNumber", PyVal.int 1)],
         Volcano.mk [("VolcanoNumber", PyVal.str "")]] =
      .error .typeError := by
  constructor
  · have hl : pySorted? (collidingIds
        [Volcano.mk [("VolcanoNumber", PyVal.int 1)],
         Volcano.mk [("VolcanoNumber", PyVal.int 2)]]
        [Volcano.mk [("VolcanoNumber", PyVal.int 2)],
         Volcano.mk [("VolcanoNumber", PyVal.int 3)]]) = some [PyVal.int 2] := by
      rw [show collidingIds
        [Volcano.mk [("VolcanoNumber", PyVal.int 1)],
         Volcano.mk [("VolcanoNumber", PyVal.int 2)]]
        [Volcano.mk [("VolcanoNumber", PyVal.int 2)],
         Volcano.mk [("VolcanoNumber", PyVal.int 3)]] = [PyVal.int 2] from rfl]
      simp [pySorted?, List.mergeSort_singleton]
    exact (C1_amended _ _).2.1 (by decide) [PyVal.int 2] hl
  · exact (C1_amended _ _).2.2 (by decide) rfl

/-! ## Claim C3 — the data-repair pass -/

/-- Appending the replacement escape in front of a clean tail cannot
produce an occurrence of the malformed sequence. -/
theorem fixSeq_append_no_bad (X : List Nat) (hX : ¬ badSeq <:+: X) :
    ¬ badSeq <:+: fixSeq ++ X := by
  intro h
  simp only [fixSeq, badSeq, List.cons_append, List.nil_append,
    List.infix_cons_iff, List.cons_prefix_cons] at h
  simp only [badSeq] at hX
  simp at h
  exact hX h

/-- If the rewritten bytes start with `"< "` then so did the input: the
replacement never begins with those bytes. -/
theorem replaceBad_starts_6032 (l : List Nat)
    (h : [60, 32] <+: replaceBad l) : [60, 32] <+: l := by
  match l with
  | [] => simp [replaceBad, List.prefix_nil] at h
  | c :: rest =>
      by_cases hp : badSeq.isPrefixOf (c :: rest)
      · rw [show replaceBad (c :: rest) = fixSeq ++ replaceBad (rest.drop 2) by
          simp [replaceBad, hp]] at h
        rcases List.cons_prefix_cons.mp h with ⟨h60, _⟩
        cases h60
      · rw [show replaceBad (c :: rest) = c :: replaceBad rest by
          simp [replaceBad, hp]] at h
        rcases List.cons_prefix_cons.mp h with ⟨rfl, h32⟩
        match rest with
        | [] => simp [replaceBad, List.prefix_nil] at h32
        | d :: r2 =>
            by_cases hp2 : badSeq.isPrefixOf (d :: r2)
            · rw [show replaceBad (d :: r2) = fixSeq ++ replaceBad (r2.drop 2) by
                simp [replaceBad, hp2]] at h32
              rcases List.cons_prefix_cons.mp h32 with ⟨h32', _⟩
              cases h32'
            · rw [show replaceBad (d :: r2) = d :: replaceBad r2 by
                simp [replaceBad, hp2]] at h32
              rcases List.cons_prefix_cons.mp h32 with ⟨rfl, _⟩
              exact ⟨r2, rfl⟩

/-- The replacement pass leaves no occurrence of the malformed sequence. -/
theorem replaceBad_no_bad : ∀ l : List Nat, ¬ badSeq <:+: replaceBad l
  | [] => by simp [replaceBad, badSeq, List.infix_nil]
  | c :: rest => by
      by_cases hp : badSeq.isPrefixOf (c :: rest)
      · rw [show replaceBad (c :: rest) = fixSeq ++ replaceBad (rest.drop 2) by
          simp [replaceBad, hp]]
        exact fixSeq_append_no_bad _ (replaceBad_no_bad (rest.drop 2))
      · rw [show replaceBad (c :: rest) = c :: replaceBad rest by
          simp [replaceBad, hp]]
        intro h
        rcases List.infix_cons_iff.mp h with h2 | h2
        · rcases List.cons_prefix_cons.mp h2 with ⟨rfl, h4⟩
          have h5 := replaceBad_starts_6032 rest h4
          apply hp
          rw [List.isPrefixOf_iff_prefix]
          rcases h5 with ⟨t, ht⟩
          exact ⟨t, by rw [show badSeq ++ t = 40 :: ([60, 32] ++ t) from rfl, ht]⟩
        · exact replaceBad_no_bad rest h2
termination_by l => l.length
decreasing_by
  · simp only [List.length_drop, List.length_cons]
    omega
  · simp

/-- The bytes produced by `_download_data` never contain the malformed
sequence: either the input was clean or it was rewritten. -/
theorem downloadData_no_bad (raw : List Nat) : ¬ badSeq <:+: downloadData raw := by
  unfold downloadData
  split
  · exact replaceBad_no_bad raw
  · rename_i h
    exact h

/-- C3: every payload fetched by `download` has every occurrence of
`"(< "` rewritten before persisting — the written bytes never contain the
sequence — and `download` preserves the invariant that no cached payload
file contains it. -/
theorem C3_repair_invariant :
    (∀ raw : List Nat, ¬ badSeq <:+: downloadData raw) ∧
    (∀ st env cacheDir ds force p st' n,
      download st env cacheDir ds force = .ok (p, st', n) →
      (∀ d bs, st.payload d = some bs → ¬ badSeq <:+: bs) →
      ∀ d bs, st'.payload d = some bs → ¬ badSeq <:+: bs) := by
  refine ⟨downloadData_no_bad, ?_⟩
  intro st env cacheDir ds force p st' n hdl hinv d bs hbs
  unfold download at hdl
  split at hdl
  · exact Except.noConfusion hdl
  · split at hdl
    · cases hdl
      exact hinv d bs hbs
    · cases hdl
      by_cases hd : d = ds
      · subst hd
        rw [show (afterDownload st env cacheDir d).payload d =
            some (downloadData (env.fetch d)) by simp [afterDownload, setAt]] at hbs
        cases hbs
        exact downloadData_no_bad _
      · rw [show (afterDownload st env cacheDir ds).payload d = st.payload d by
            simp [afterDownload, setAt, hd]] at hbs
        exact hinv d bs hbs

/-- Witness for C3: the repaired sequence itself contains no occurrence of
the malformed bytes, at the concrete payload `b"(< "`. -/
theorem C3_repair_invariant_witness : ¬ badSeq <:+: downloadData [40, 60, 32] :=
  C3_repair_invariant.1 [40, 60, 32]

/-! ## Claim C4 — CSV to GeoJSON row conversion -/

/-- The coordinate string the row supplies: the capitalised key takes
precedence, then the lowercase key; `none` when both are absent. -/
def rowCoordStr (row : CsvRow) (k1 k2 : String) : Option String :=
  match rowGet row k1 with
  | some s => some s
  | none => rowGet row k2

/-- The keep-condition exactly as the claim states it: the latitude and
longitude values, looked up under both field-name conventions, must be
present and parse as numbers. -/
def claimRowKept (row : CsvRow) : Prop :=
  (∃ s, rowCoordStr row "Latitude" "latitude" = some s ∧ (pyFloat? s).isSome = true) ∧
  (∃ s, rowCoordStr row "Longitude" "longitude" = some s ∧ (pyFloat? s).isSome = true)

/-- C4, counterexample to the claim as stated: a row with no latitude or
longitude field at all is kept by `_csv_to_geojson` — `row.get` defaults
the missing coordinate to the numeric literal `0`, which converts — even
though it has no latitude or longitude value that parses. -/
theorem C4_counterexample :
    csvToGeojson [[("Name", "X")]] =
      [{ coordinates := (0, 0), properties := [("Name", PropVal.str "X")] }] ∧
    ¬ claimRowKept [("Name", "X")] := by
  constructor
  · rfl
  · rintro ⟨⟨s, hs, _⟩, _⟩
    simp [rowCoordStr, rowGet] at hs

/-- The per-row conversion, row-local: keep the row exactly when both
coordinate lookups convert (a missing key defaulting to the numeric
literal `0`), and re-type every non-coordinate field. -/
def rowFeature? (row : CsvRow) : Option Feature :=
  match coordParse row "Latitude" "latitude", coordParse row "Longitude" "longitude" with
  | some lat, some lon =>
      some { coordinates := (lon, lat),
             properties := row.filterMap (fun kv =>
               if pyLower kv.1 ∈ coordNames then none
               else some (kv.1, retypeProp kv.2)) }
  | _, _ => none

/-- C4 (amended): a row yields a feature iff both its coordinate values
convert to numbers, where a value found under the capitalised or lowercase
convention must parse as a float and a row missing both keys defaults to
the number `0` and is kept; each remaining field becomes a property
re-typed by the code's rule — float when the string contains a decimal
point and float-parses, integer when it has no decimal point and
int-parses, the original string otherwise. -/
theorem C4_amended :
    (∀ rows : List CsvRow, csvToGeojson rows = rows.filterMap rowFeature?) ∧
    (∀ row : CsvRow, (rowFeature? row).isSome = true ↔
      (coordParse row "Latitude" "latitude").isSome = true ∧
      (coordParse row "Longitude" "longitude").isSome = true) ∧
    (∀ row : CsvRow, ∀ k1 k2, rowCoordStr row k1 k2 = none →
      coordParse row k1 k2 = some 0) ∧
    (∀ row : CsvRow, ∀ k1 k2 s, rowCoordStr row k1 k2 = some s →
      coordParse row k1 k2 = pyFloat? s) ∧
    (∀ s q, s.toList.contains '.' = true → pyFloat? s = some q →
      retypeProp s = .num q) ∧
    (∀ s n, s.toList.contains '.' = false → pyInt? s = some n →
      retypeProp s = .int n) ∧
    (∀ s, s.toList.contains '.' = true → pyFloat? s = none → retypeProp s = .str s) ∧
    (∀ s, s.toList.contains '.' = false → pyInt? s = none → retypeProp s = .str s) := by
  refine ⟨?_, ?_, ?_, ?_, ?_, ?_, ?_, ?_⟩
  · intro rows
    induction rows with
    | nil => rfl
    | cons row rest ih =>
        rcases hla : coordParse row "Latitude" "latitude" with _ | lat <;>
          rcases hlo : coordParse row "Longitude" "longitude" with _ | lon <;>
            simp [csvToGeojson, rowFeature?, List.filterMap_cons, hla, hlo, ih]
  · intro row
    rcases hla : coordParse row "Latitude" "latitude" with _ | lat <;>
      rcases hlo : coordParse row "Longitude" "longitude" with _ | lon <;>
        simp [rowFeature?, hla, hlo]
  · intro row k1 k2 h
    rcases h1 : rowGet row k1 with _ | s1 <;> rcases h2 : rowGet row k2 with _ | s2 <;>
      simp [rowCoordStr, h1, h2] at h <;> simp [coordParse, h1, h2]
  · intro row k1 k2 s h
    rcases h1 : rowGet row k1 with _ | s1 <;> rcases h2 : rowGet row k2 with _ | s2 <;>
      simp [rowCoordStr, h1, h2] at h <;> simp [coordParse, h1, h2, h]
  · intro s q hdot hq
    unfold retypeProp
    rw [hdot, if_pos rfl, hq]
  · intro s n hdot hn
    unfold retypeProp
    rw [hdot, if_neg Bool.false_ne_true, hn]
  · intro s hdot hq
    unfold retypeProp
    rw [hdot, if_pos rfl, hq]
  · intro s hdot hn
    unfold retypeProp
    rw [hdot, if_neg Bool.false_ne_true, hn]

/-- Witness for C4 at concrete rows: of two rows, the one whose
coordinates parse is kept and the one whose latitude is `"abc"` is
dropped; properties re-type by the code's rule. -/
theorem C4_amended_witness :
    (csvToGeojson [[("Latitude", "1.5"), ("Longitude", "2"), ("Elevation", "100"),
        ("Name", "A.B")], [("Latitude", "abc"), ("Longitude", "2")]]).length = 1 ∧
    retypeProp "100" = .int 100 ∧ retypeProp "A.B" = .str "A.B" := by
  refine ⟨?_, ?_, ?_⟩
  · rw [(C4_amended.1) [[("Latitude", "1.5"), ("Longitude", "2"), ("Elevation", "100"),
      ("Name", "A.B")], [("Latitude", "abc"), ("Longitude", "2")]]]
    rfl
  · exact C4_amended.2.2.2.2.2.1 "100" 100 (by decide) (by decide)
  · exact C4_amended.2.2.2.2.2.2.1 "A.B" (by decide) (by decide)

/-! ## Claim C6 — inclusive radius filter and missing coordinates -/

/-- C6: whenever the radius filter returns (no dynamic type error), a
record is kept iff it was in the input and its distance to the reference
point is at most the radius — the boundary is inclusive — and a record
with a missing latitude or longitude has distance `inf` to every point and
is excluded for every (finite, real) radius. -/
theorem C6_within_radius (vs : List Volcano) (lat lon radius : ℚ)
    (res : List Volcano) (hres : within_radius vs lat lon radius = some res)
    (v : Volcano) :
    (v ∈ res ↔ v ∈ vs ∧ ∃ d : EReal, v.distance_to lat lon = some d ∧
      d ≤ ((radius : ℝ) : EReal)) ∧
    (v.lat = .null ∨ v.lon = .null →
      v.distance_to lat lon = some ⊤ ∧ v ∉ res) := by
  have hmain : v ∈ res ↔ v ∈ vs ∧ ∃ d : EReal, v.distance_to lat lon = some d ∧
      d ≤ ((radius : ℝ) : EReal) := by
    induction vs generalizing res with
    | nil =>
        cases hres
        simp
    | cons w t ih =>
        rw [within_radius] at hres
        rcases hd : w.distance_to lat lon with _ | d <;> rw [hd] at hres
        · exact Option.noConfusion hres
        · rcases ht : within_radius t lat lon radius with _ | l <;> rw [ht] at hres
          · exact Option.noConfusion hres
          · cases hres
            have ihl := ih l ht
            by_cases hle : d ≤ ((radius : ℝ) : EReal)
            · rw [if_pos hle]
              constructor
              · intro hv
                rcases List.mem_cons.mp hv with rfl | hv
                · exact ⟨List.mem_cons_self _ _, d, hd, hle⟩
                · rcases ihl.mp hv with ⟨hvt, d', hd', hle'⟩
                  exact ⟨List.mem_cons_of_mem _ hvt, d', hd', hle'⟩
              · rintro ⟨hv, d', hd', hle'⟩
                rcases List.mem_cons.mp hv with rfl | hv
                · exact List.mem_cons_self _ _
                · exact List.mem_cons_of_mem _ (ihl.mpr ⟨hv, d', hd', hle'⟩)
            · rw [if_neg hle]
              constructor
              · intro hv
                rcases ihl.mp hv with ⟨hvt, d', hd', hle'⟩
                exact ⟨List.mem_cons_of_mem _ hvt, d', hd', hle'⟩
              · rintro ⟨hv, d', hd', hle'⟩
                rcases List.mem_cons.mp hv with rfl | hv
                · rw [hd] at hd'
                  cases hd'
                  exact absurd hle' hle
                · exact ihl.mpr ⟨hv, d', hd', hle'⟩
  refine ⟨hmain, fun hnull => ?_⟩
  have hdist : v.distance_to lat lon = some ⊤ := by
    rw [Volcano.distance_to, if_pos hnull]
  refine ⟨hdist, fun hv => ?_⟩
  rcases hmain.mp hv with ⟨_, d, hd, hle⟩
  rw [hdist] at hd
  cases hd
  exact absurd hle (not_le.mpr (EReal.coe_lt_top (radius : ℝ)))

/-- Witness for C6: a record with coordinates at the reference point is
kept (distance `0 ≤ 5`), a record with no coordinates is excluded. -/
theorem C6_within_radius_witness :
    Volcano.mk [("Latitude", PyVal.num 0), ("Longitude", PyVal.num 0)] ∈
      [Volcano.mk [("Latitude", PyVal.num 0), ("Longitude", PyVal.num 0)]] ∧
    Volcano.mk [] ∉
      [Volcano.mk [("Latitude", PyVal.num 0), ("Longitude", PyVal.num 0)]] := by
  have hzero : haversineDist 0 0 0 0 = 0 := by
    simp [haversineDist]
  have hd0 : (Volcano.mk [("Latitude", PyVal.num 0),
      ("Longitude", PyVal.num 0)]).distance_to 0 0 = some ((0 : ℝ) : EReal) := by
    rw [Volcano.distance_to, if_neg (by simp [Volcano.lat, Volcano.lon, dictGet])]
    simp only [Volcano.lat, Volcano.lon]
    rw [show dictGet [("Latitude", PyVal.num 0), ("Longitude", PyVal.num 0)]
      "Latitude" = PyVal.num 0 from rfl]
    rw [show dictGet [("Latitude", PyVal.num 0), ("Longitude", PyVal.num 0)]
      "Longitude" = PyVal.num 0 from rfl]
    simp [pyNum?, hzero]
  have hdnull : (Volcano.mk []).distance_to 0 0 = some ⊤ := by
    simp [Volcano.distance_to, Volcano.lat, dictGet]
  have hres : within_radius [Volcano.mk [("Latitude", PyVal.num 0),
      ("Longitude", PyVal.num 0)], Volcano.mk []] 0 0 5 =
      some [Volcano.mk [("Latitude", PyVal.num 0), ("Longitude", PyVal.num 0)]] := by
    simp only [within_radius, hd0, hdnull]
    rw [if_neg (not_le.mpr (EReal.coe_lt_top (((5 : ℚ) : ℝ))))]
    rw [if_pos (EReal.coe_le_coe_iff.mpr (by norm_num))]
  constructor
  · exact ((C6_within_radius _ 0 0 5 _ hres
      (Volcano.mk [("Latitude", PyVal.num 0), ("Longitude", PyVal.num 0)])).1).mpr
      (⟨List.mem_cons_self _ _, ((0 : ℝ) : EReal), hd0,
        EReal.coe_le_coe_iff.mpr (by norm_num)⟩)
  · exact ((C6_within_radius _ 0 0 5 _ hres (Volcano.mk [])).2
      (Or.inl (show (Volcano.mk []).lat = PyVal.null from rfl))).2

/-! ## Claim C9 — filtering a lazy instance with no data loaded -/

theorem filterSub_nil (get : Volcano → PyVal) (s : String) :
    filterSub get s [] = .ok [] := rfl

theorem elevFilterLoop_nil (minE maxE : Option ℚ) :
    elevFilterLoop minE maxE [] = .ok [] := rfl

theorem within_radius_nil (la lo r : ℚ) : within_radius [] la lo r = some [] := by
  rw [within_radius]

theorem sort_by_distance_nil (la lo : ℚ) : sort_by_distance [] la lo = some [] := by
  rw [sort_by_distance]
  simp [List.mapM, List.mapM.loop]

theorem applyStrFilter_nil (get : Volcano → PyVal) (o : Option String) :
    applyStrFilter get o [] = .ok [] := by
  unfold applyStrFilter
  cases strCrit o <;> rfl

theorem applyIdFilter_nil (o : Option Int) : applyIdFilter o [] = [] := by
  unfold applyIdFilter
  cases o <;> rfl

theorem applyElevFilter_nil (mn mx : Option ℚ) : applyElevFilter mn mx [] = .ok [] := by
  unfold applyElevFilter
  split <;> rfl

theorem applyGeoFilter_nil (la lo r : Option ℚ) : applyGeoFilter la lo r [] = .ok [] := by
  unfold applyGeoFilter
  cases la with
  | none => rfl
  | some la =>
      cases lo with
      | none => rfl
      | some lo =>
          cases r with
          | none => simp [sort_by_distance_nil, Bind.bind, Except.bind, Pure.pure, Except.pure]
          | some r => simp [within_radius_nil, sort_by_distance_nil, Bind.bind, Except.bind]

/-- C9: on a web-services (lazy) facade with no data loaded, the
`volcanoes` property is the empty list and `filter_volcanoes` returns an
empty collection for every combination of criteria, raising no mode
error. -/
theorem C9_lazy_filter_empty (g : GVP) (hweb : g.use_web_services = true)
    (hnone : g._volcanoes = none) :
    g.volcanoes = [] ∧ ∀ a : FilterArgs, g.filter_volcanoes a = .ok [] := by
  have hv : g.volcanoes = [] := by simp [GVP.volcanoes, hweb, hnone]
  refine ⟨hv, fun a => ?_⟩
  unfold GVP.filter_volcanoes
  rw [hv]
  simp [applyStrFilter_nil, applyIdFilter_nil, applyElevFilter_nil, applyGeoFilter_nil,
    Bind.bind, Except.bind]

/-- Witness for C9 on a lazy facade with every criterion supplied. -/
theorem C9_lazy_filter_empty_witness :
    GVP.volcanoes ⟨true, none⟩ = [] ∧
    GVP.filter_volcanoes ⟨true, none⟩
      ⟨some "chile", some "villarrica", some 357120, some "strato", some "holocene",
       some (-39), some (-72), some 100, some 0, some 5000⟩ = .ok [] :=
  ⟨(C9_lazy_filter_empty ⟨true, none⟩ rfl rfl).1,
   (C9_lazy_filter_empty ⟨true, none⟩ rfl rfl).2 _⟩

end Volcanoes